import Mathlib

/-!
Shallow embedding of `pycaret/internal/plots/time_series.py`.

The module is a visualization layer over external libraries:
`statsmodels` (acf/pacf), `sktime` (cross-validation splitters),
`plotly` (figures/traces), `matplotlib`+`statsmodels` (qqplot) and
`plotly.express` (histogram).  The external libraries are modelled as
abstract function records; the module's own code is translated
definition by definition.  Numeric values carried by series are
modelled by `ℚ` (the claims under study are structural, not about
floating-point rounding).
-/

namespace TSPlots

/-- Model of a `pandas.Series`: an optional name, an index and values. -/
structure Series where
  name : Option String := none
  index : List ℚ := []
  values : List ℚ := []
deriving Repr, DecidableEq

/-- Models `series.index.to_timestamp()`: the period index converted to
timestamps, abstracted as the index itself. -/
def Series.to_timestamp (s : Series) : List ℚ := s.index

/-- Models `len(series)`. -/
def Series.len (s : Series) : Nat := s.values.length

/-- Model of a plotly trace (`go.Scatter` / histogram trace), keeping the
fields the module sets. -/
structure Trace where
  kind : String := "scatter"
  name : Option String := none
  x : List ℚ := []
  y : List ℚ := []
  mode : String := ""
  fill : Option String := none
  lineColor : Option String := none
  lineWidth : Option ℚ := none
  markerColor : Option String := none
  markerSize : Option ℚ := none
  fillColor : Option String := none
  showlegend : Option Bool := none
  row : Option Nat := none
  col : Option Nat := none
deriving Repr, DecidableEq

/-- A logged `update_xaxes` / `update_yaxes` call. -/
structure AxisOp where
  axis : String
  titleText : Option String := none
  rangeLo : Option ℚ := none
  rangeHi : Option ℚ := none
  autorange : Option String := none
  zerolineColor : Option String := none
  row : Option Nat := none
  col : Option Nat := none
deriving Repr, DecidableEq

/-- Model of a plotly figure: its traces, subplot grid, the layout fields
the module sets, and a log of its axis updates. -/
structure Figure where
  traces : List Trace := []
  rows : Nat := 1
  cols : Nat := 1
  rowHeights : List ℚ := []
  subplotTitles : List String := []
  title : Option String := none
  xaxisTitle : Option String := none
  yaxisTitle : Option String := none
  xaxisZeroline : Option Bool := none
  template : Option String := none
  showlegend : Option Bool := none
  axisOps : List AxisOp := []
deriving Repr, DecidableEq

/-- Models `fig.add_trace(t)` / `fig.add_scatter(...)`: appends a trace. -/
def Figure.addTrace (f : Figure) (t : Trace) : Figure :=
  { f with traces := f.traces ++ [t] }

/-- Models `fig.add_trace(t, row=r, col=c)` / `fig.add_scatter(..., row=r,
col=c)`: appends a trace bound to a subplot cell. -/
def Figure.addTraceAt (f : Figure) (t : Trace) (r c : Nat) : Figure :=
  { f with traces := f.traces ++ [{ t with row := some r, col := some c }] }

/-- Models `fig.update_traces(showlegend=b)`: sets the flag on every trace
currently in the figure. -/
def Figure.updateTracesShowlegend (f : Figure) (b : Bool) : Figure :=
  { f with traces := f.traces.map (fun t => { t with showlegend := some b }) }

/-- Models `fig.update_xaxes(...)` / `fig.update_yaxes(...)`: the call is
logged. -/
def Figure.logAxisOp (f : Figure) (op : AxisOp) : Figure :=
  { f with axisOps := f.axisOps ++ [op] }

/-- Models `plotly.subplots.make_subplots(rows=..., cols=...,
row_heights=..., subplot_titles=...)`. -/
def make_subplots (r c : Nat) (heights : List ℚ) (titles : List String) :
    Figure :=
  { rows := r, cols := c, rowHeights := heights, subplotTitles := titles }

/-- Models `np.arange(n)`. -/
def arange (n : Nat) : List ℚ := (List.range n).map (fun i => (i : ℚ))

/-- Result of `statsmodels` `acf`/`pacf` when called with an `alpha`:
the estimates and the confidence interval per lag. -/
structure ACFResult where
  estimates : List ℚ := []
  confint : List (ℚ × ℚ) := []
deriving Repr, DecidableEq

/-- The external statistics library (`statsmodels.tsa.stattools`). -/
structure StatsLib where
  acf : Series → ℚ → ACFResult
  pacf : Series → ℚ → ACFResult

/-- The two matplotlib lines produced by `statsmodels` `qqplot`:
the sample points and the reference line. -/
structure QQData where
  pointsX : List ℚ := []
  pointsY : List ℚ := []
  lineX : List ℚ := []
  lineY : List ℚ := []
deriving Repr, DecidableEq

/-- The external graphics helpers: `qqplot` (via matplotlib) and
`px.histogram(...).data[0]`. -/
structure GraphicsLib where
  qqplot : Series → QQData
  histogram : Series → Trace

/-- The external cross-validation splitter (`sktime`): `cv.split(y)`
yields (train indices, test indices) pairs in order. -/
structure CVSplitter where
  split : Series → List (List Nat × List Nat)

/-- External-library interactions a plotting call may perform, in order.
`mutateSeries` is in the vocabulary to express frame conditions; the
module never emits it. -/
inductive Eff where
  | acfCall (data : Series) (alpha : ℚ)
  | pacfCall (data : Series) (alpha : ℚ)
  | cvSplitCall (data : Series)
  | qqplotCall (data : Series)
  | histogramCall (data : Series)
  | showFig
  | mutateSeries (s : Series)
deriving Repr, DecidableEq

/-- Is this effect a mutation of a series argument? -/
def Eff.isMutate : Eff → Bool
  | .mutateSeries _ => true
  | _ => false

/-- Is this effect a call that computes a statistical summary? -/
def Eff.isStatCall : Eff → Bool
  | .acfCall _ _ => true
  | .pacfCall _ _ => true
  | .qqplotCall _ => true
  | .histogramCall _ => true
  | _ => false

/-- The shapes a plotting function's Python return value can take. -/
inductive PyRet where
  | noneRet
  | fig (f : Figure)
  | figSeries (f : Figure) (s : Series)
  | figSeriesPair (f : Figure) (train test : Series)
  | figVals (f : Figure) (vals : List ℚ)
  | figTracesSeries (f : Figure) (traces : List Trace) (predictions : Series)
  | figTracesSeries3 (f : Figure) (traces : List Trace)
      (predictions upper lower : Series)
deriving Repr, DecidableEq

/-- First component of the return value, when it is (or starts with) a
figure. -/
def PyRet.figOf : PyRet → Option Figure
  | .noneRet => none
  | .fig f => some f
  | .figSeries f _ => some f
  | .figSeriesPair f _ _ => some f
  | .figVals f _ => some f
  | .figTracesSeries f _ _ => some f
  | .figTracesSeries3 f _ _ _ _ => some f

/-- The ACF/PACF values component of the return value, when present. -/
def PyRet.valsOf : PyRet → Option (List ℚ)
  | .figVals _ v => some v
  | _ => none

/-- Does the return value have the five-component shape of
`plot_predictions_with_confidence` (fig, traces, predictions, upper
interval, lower interval)? -/
def PyRet.isFig3 : PyRet → Bool
  | .figTracesSeries3 _ _ _ _ _ => true
  | _ => false

/-- A plotting call's outcome: its Python return value and the ordered
log of external-library interactions it performed. -/
structure Output where
  ret : PyRet
  effects : List Eff
deriving Repr, DecidableEq

/-- The figure built by the call (default figure if the call returned
`None`). -/
def Output.theFig (o : Output) : Figure := (PyRet.figOf o.ret).getD {}

/-- The effects of `fig.show()` at the end of a plotting function:
`[showFig]` when `show=True`, nothing otherwise. -/
def showEffects (show_ : Bool) : List Eff := if show_ then [Eff.showFig] else []

/-- `plot_series`: plots the original time series. -/
def plot_series (data : Series) (return_data : Bool := false)
    (show_ : Bool := true) : Output :=
  let original : Trace :=
    { name := some "Original", x := data.to_timestamp, y := data.values,
      mode := "lines+markers", markerSize := some 5,
      markerColor := some "#3f3f3f", showlegend := some true }
  let plot_data := [original]
  let fig : Figure :=
    { traces := plot_data, yaxisTitle := some "Values",
      xaxisTitle := some "Time", title := some "Time Series" }
  let fig := { fig with template := some "simple_white" }
  let fig := { fig with showlegend := some true }
  { ret := if return_data then .figSeries fig data else .fig fig,
    effects := showEffects show_ }

/-- `plot_splits_tt`: plots the train-test split for the time series. -/
def plot_splits_tt (train test : Series) (return_data : Bool := false)
    (show_ : Bool := true) : Output :=
  let fig : Figure := {}
  let fig := fig.addTrace
    { x := train.to_timestamp, y := train.values, mode := "lines+markers",
      markerColor := some "#1f77b4", name := some "Train" }
  let fig := fig.addTrace
    { x := test.to_timestamp, y := test.values, mode := "lines+markers",
      markerColor := some "#FFA500", name := some "Test" }
  let fig :=
    { fig with
      title := some "Train Test Split",
      xaxisTitle := some "Time", xaxisZeroline := some false,
      yaxisTitle := some "Values", showlegend := some true }
  let fig := { fig with template := some "simple_white" }
  { ret := if return_data then .figSeriesPair fig train test else .fig fig,
    effects := showEffects show_ }

/-- Loop body of `get_windows`: iterates `cv.split(y)`, appending each
yielded train index array and test index array to the accumulators. -/
def getWindowsLoop (splits : List (List Nat × List Nat))
    (trainAcc testAcc : List (List Nat)) :
    List (List Nat) × List (List Nat) :=
  match splits with
  | [] => (trainAcc, testAcc)
  | (train, test) :: rest =>
      getWindowsLoop rest (trainAcc ++ [train]) (testAcc ++ [test])

/-- `get_windows` (inner helper of `plot_splits_cv`): generates the train
and test windows from the splitter. -/
def get_windows (y : Series) (cv : CVSplitter) :
    List (List Nat) × List (List Nat) :=
  getWindowsLoop (cv.split y) [] []

/-- Sets `showlegend=False` on a trace, as `fig.update_traces(showlegend=
False)` does on each trace. -/
def slFalse (t : Trace) : Trace := { t with showlegend := some false }

/-- One iteration's traces in `plot_windows`: for window `num_window`, the
grey "Unchanged" segments over the whole series, then the "Train" segments
for `train_windows[num_window][:-1]`, then the "ForecastHorizon" segments
for `test_windows[num_window][:-1]`; every segment sits at height
`y=(num_window, num_window)`. -/
def windowRowTraces (data : Series) (trainW testW : List Nat)
    (num_window : Nat) : List Trace :=
  let time_stamps := data.to_timestamp
  ((List.range (data.len - 1)).map (fun i =>
    ({ x := [time_stamps.getD i 0, time_stamps.getD (i + 1) 0],
       y := [(num_window : ℚ), (num_window : ℚ)], mode := "lines+markers",
       lineColor := some "#C0C0C0", name := some "Unchanged" } : Trace)))
  ++ (trainW.dropLast.map (fun i =>
    ({ x := [time_stamps.getD i 0, time_stamps.getD (i + 1) 0],
       y := [(num_window : ℚ), (num_window : ℚ)], mode := "lines+markers",
       lineColor := some "#1f77b4", name := some "Train",
       showlegend := some false } : Trace)))
  ++ (testW.dropLast.map (fun i =>
    ({ x := [time_stamps.getD i 0, time_stamps.getD (i + 1) 0],
       y := [(num_window : ℚ), (num_window : ℚ)], mode := "lines+markers",
       lineColor := some "#DE970B", name := some "ForecastHorizon" } : Trace)))

/-- Body of the `for num_window in reversed(range(...))` loop in
`plot_windows`: adds the window's traces, then performs the
`update_traces`, `update_yaxes` and `update_layout` calls. -/
def addWindowRow (data : Series) (trainWs testWs : List (List Nat))
    (fig : Figure) (num_window : Nat) : Figure :=
  let fig :=
    { fig with
      traces := fig.traces ++
        windowRowTraces data (trainWs.getD num_window [])
          (testWs.getD num_window []) num_window }
  let fig := fig.updateTracesShowlegend false
  let fig := fig.logAxisOp { axis := "y", autorange := some "reversed" }
  let fig :=
    { fig with
      title := some "Train Cross-Validation Splits",
      xaxisTitle := some "Time", xaxisZeroline := some false,
      yaxisTitle := some "Windows", showlegend := some true }
  { fig with template := some "simple_white" }

/-- `plot_windows` (inner helper of `plot_splits_cv`): builds the figure
by iterating the window indices in reverse. -/
def plot_windows (data : Series) (trainWs testWs : List (List Nat)) :
    Figure :=
  ((List.range trainWs.length).reverse).foldl
    (addWindowRow data trainWs testWs) {}

/-- `plot_splits_cv`: plots the cv splits used on the training split. -/
def plot_splits_cv (data : Series) (cv : CVSplitter)
    (return_data : Bool := false) (show_ : Bool := true) : Output :=
  let windows := get_windows data cv
  let fig := plot_windows data windows.1 windows.2
  { ret := if return_data then .figSeries fig data else .fig fig,
    effects := [Eff.cvSplitCall data] ++ showEffects show_ }

/-- `plot_acf`: plots the ACF on the data provided, computing
`acf(data, alpha=0.05)` from the external statistics library. -/
def plot_acf (lib : StatsLib) (data : Series) (return_data : Bool := false)
    (show_ : Bool := true) : Output :=
  let corr_array := lib.acf data (1 / 20)
  let lower_y :=
    List.zipWith (fun (c : ℚ × ℚ) e => c.1 - e) corr_array.confint
      corr_array.estimates
  let upper_y :=
    List.zipWith (fun (c : ℚ × ℚ) e => c.2 - e) corr_array.confint
      corr_array.estimates
  let fig : Figure := {}
  let fig := fig.addTrace
    { x := arange corr_array.estimates.length, y := corr_array.estimates,
      mode := "markers", markerColor := some "#1f77b4",
      markerSize := some 10, name := some "ACF" }
  let fig :=
    { fig with
      traces := fig.traces ++
        (List.range corr_array.estimates.length).map (fun (i : Nat) =>
          ({ x := [(i : ℚ), (i : ℚ)],
             y := [0, corr_array.estimates.getD i 0], mode := "lines",
             lineColor := some "#3f3f3f",
             name := some ("Lag" ++ toString (i + 1)) } : Trace)) }
  let fig := fig.addTrace
    { x := arange corr_array.estimates.length, y := upper_y,
      mode := "lines", lineColor := some "rgba(255,255,255,0)",
      name := some "UC" }
  let fig := fig.addTrace
    { x := arange corr_array.estimates.length, y := lower_y,
      mode := "lines", fillColor := some "rgba(32, 146, 230,0.3)",
      fill := some "tonexty", lineColor := some "rgba(255,255,255,0)",
      name := some "LC" }
  let fig := fig.updateTracesShowlegend false
  let fig := fig.logAxisOp
    { axis := "x", rangeLo := some (-1), rangeHi := some 42 }
  let fig := fig.addTrace
    { x := [0, (corr_array.estimates.length : ℚ)], y := [0, 0],
      mode := "lines", lineColor := some "#3f3f3f", name := some "" }
  let fig := fig.updateTracesShowlegend false
  let fig := fig.logAxisOp { axis := "y", zerolineColor := some "#000000" }
  let fig := { fig with template := some "simple_white" }
  let fig := { fig with title := some "Autocorrelation (ACF)" }
  { ret := if return_data then .figVals fig corr_array.estimates
      else .fig fig,
    effects := [Eff.acfCall data (1 / 20)] ++ showEffects show_ }

/-- `plot_pacf`: plots the PACF on the data provided, computing
`pacf(data, alpha=0.05)` from the external statistics library. -/
def plot_pacf (lib : StatsLib) (data : Series) (return_data : Bool := false)
    (show_ : Bool := true) : Output :=
  let corr_array := lib.pacf data (1 / 20)
  let lower_y :=
    List.zipWith (fun (c : ℚ × ℚ) e => c.1 - e) corr_array.confint
      corr_array.estimates
  let upper_y :=
    List.zipWith (fun (c : ℚ × ℚ) e => c.2 - e) corr_array.confint
      corr_array.estimates
  let fig : Figure := {}
  let fig := fig.addTrace
    { x := arange corr_array.estimates.length, y := corr_array.estimates,
      mode := "markers", markerColor := some "#1f77b4",
      markerSize := some 10, name := some "PACF" }
  let fig :=
    { fig with
      traces := fig.traces ++
        (List.range corr_array.estimates.length).map (fun (i : Nat) =>
          ({ x := [(i : ℚ), (i : ℚ)],
             y := [0, corr_array.estimates.getD i 0], mode := "lines",
             lineColor := some "#3f3f3f",
             name := some ("Lag" ++ toString (i + 1)) } : Trace)) }
  let fig := fig.addTrace
    { x := arange corr_array.estimates.length, y := upper_y,
      mode := "lines", lineColor := some "rgba(255,255,255,0)",
      name := some "UC" }
  let fig := fig.addTrace
    { x := arange corr_array.estimates.length, y := lower_y,
      mode := "lines", fillColor := some "rgba(32, 146, 230,0.3)",
      fill := some "tonexty", lineColor := some "rgba(255,255,255,0)",
      name := some "LC" }
  let fig := fig.updateTracesShowlegend false
  let fig := fig.logAxisOp
    { axis := "x", rangeLo := some (-1), rangeHi := some 42 }
  let fig := fig.addTrace
    { x := [0, (corr_array.estimates.length : ℚ)], y := [0, 0],
      mode := "lines", lineColor := some "#3f3f3f", name := some "" }
  let fig := fig.updateTracesShowlegend false
  let fig := fig.logAxisOp { axis := "y", zerolineColor := some "#000000" }
  let fig := { fig with template := some "simple_white" }
  let fig := { fig with title := some "Partial Autocorrelation (PACF)" }
  { ret := if return_data then .figVals fig corr_array.estimates
      else .fig fig,
    effects := [Eff.pacfCall data (1 / 20)] ++ showEffects show_ }

/-- `plot_predictions`: plots the original data and the predictions
provided.  Note the local name `data` is rebound to the trace list before
the return, exactly as in the source. -/
def plot_predictions (data predictions : Series)
    (return_data : Bool := false) (show_ : Bool := true) : Output :=
  let mean : Trace :=
    { name := some "Forecast", x := predictions.to_timestamp,
      y := predictions.values, mode := "lines+markers",
      lineColor := some "#1f77b4", markerSize := some 5,
      showlegend := some true }
  let original : Trace :=
    { name := some "Original", x := data.to_timestamp, y := data.values,
      mode := "lines+markers", markerSize := some 5,
      markerColor := some "#3f3f3f", showlegend := some true }
  let data := [mean, original]
  let fig : Figure :=
    { traces := data, yaxisTitle := some "Values",
      xaxisTitle := some "Time", title := some "Forecasts" }
  let fig := { fig with template := some "simple_white" }
  let fig := { fig with showlegend := some true }
  { ret := if return_data then .figTracesSeries fig data predictions
      else .fig fig,
    effects := showEffects show_ }

/-- Inner helper `qq` of `plot_diagnostics`: adds the two qqplot lines
(sample points and reference line) at subplot cell (2, 2). -/
def diag_qq (glib : GraphicsLib) (data : Series) (fig : Figure) : Figure :=
  let qqplot_data := glib.qqplot data
  let fig := fig.addTraceAt
    { kind := "scatter", x := qqplot_data.pointsX, y := qqplot_data.pointsY,
      mode := "markers", markerColor := some "#1f77b4",
      name := data.name } 2 2
  let fig := fig.addTraceAt
    { kind := "scatter", x := qqplot_data.lineX, y := qqplot_data.lineY,
      mode := "lines", lineColor := some "#3f3f3f",
      name := data.name } 2 2
  let fig := fig.logAxisOp
    { axis := "x", titleText := some "Theoritical Quantities",
      row := some 2, col := some 2 }
  fig.logAxisOp
    { axis := "y", titleText := some "Sample Quantities",
      row := some 2, col := some 2 }

/-- Inner helper `dist_plot` of `plot_diagnostics`: adds the histogram
trace (from `px.histogram`) at subplot cell (1, 2). -/
def diag_dist_plot (glib : GraphicsLib) (data : Series) (fig : Figure) :
    Figure :=
  let fig := fig.addTraceAt (glib.histogram data) 1 2
  let fig := fig.logAxisOp
    { axis := "x", titleText := some "Range of Values",
      row := some 1, col := some 2 }
  fig.logAxisOp
    { axis := "y", titleText := some "PDF", row := some 1, col := some 2 }

/-- Inner helper `plot_acf` of `plot_diagnostics` (the name shadows the
module-level `plot_acf` in the source): computes `acf(data, alpha=0.05)`
and adds the ACF traces at subplot cell (2, 1). -/
def diag_plot_acf (lib : StatsLib) (data : Series) (fig : Figure) :
    Figure :=
  let corr_array := lib.acf data (1 / 20)
  let lower_y :=
    List.zipWith (fun (c : ℚ × ℚ) e => c.1 - e) corr_array.confint
      corr_array.estimates
  let upper_y :=
    List.zipWith (fun (c : ℚ × ℚ) e => c.2 - e) corr_array.confint
      corr_array.estimates
  let fig :=
    { fig with
      traces := fig.traces ++
        (List.range corr_array.estimates.length).map (fun (i : Nat) =>
          ({ x := [(i : ℚ), (i : ℚ)],
             y := [0, corr_array.estimates.getD i 0], mode := "lines",
             lineColor := some "#3f3f3f", row := some 2, col := some 1,
             name := some "ACF" } : Trace)) }
  let fig := fig.addTraceAt
    { x := arange corr_array.estimates.length, y := corr_array.estimates,
      mode := "markers", markerColor := some "#1f77b4",
      markerSize := some 6 } 2 1
  let fig := fig.addTraceAt
    { x := arange corr_array.estimates.length, y := upper_y,
      mode := "lines", lineColor := some "rgba(255,255,255,0)",
      name := some "UC" } 2 1
  let fig := fig.addTraceAt
    { x := arange corr_array.estimates.length, y := lower_y,
      mode := "lines", fillColor := some "rgba(32, 146, 230,0.3)",
      fill := some "tonexty", lineColor := some "rgba(255,255,255,0)",
      name := some "LC" } 2 1
  let fig := fig.updateTracesShowlegend false
  let fig := fig.logAxisOp
    { axis := "x", rangeLo := some (-1), rangeHi := some 42,
      row := some 2, col := some 1 }
  let fig := fig.logAxisOp
    { axis := "y", zerolineColor := some "#000000",
      row := some 2, col := some 1 }
  let fig := fig.logAxisOp
    { axis := "x", titleText := some "Lags", row := some 2, col := some 1 }
  fig.logAxisOp
    { axis := "y", titleText := some "ACF", row := some 2, col := some 1 }

/-- Inner helper `time_plot` of `plot_diagnostics`: adds the time plot of
the series at subplot cell (1, 1). -/
def diag_time_plot (data : Series) (fig : Figure) : Figure :=
  let fig := fig.addTraceAt
    { x := data.to_timestamp, y := data.values, mode := "lines+markers",
      markerColor := some "#1f77b4", markerSize := some 2,
      name := some "Time Plot" } 1 1
  let fig := fig.logAxisOp
    { axis := "x", titleText := some "Time", row := some 1, col := some 1 }
  fig.logAxisOp
    { axis := "y", titleText := some "Value", row := some 1, col := some 1 }

/-- `plot_diagnostics`: plots the diagnostic data such as ACF, histogram
and QQ plot on the data provided, in a 2x2 subplot grid.  The inner
helpers are invoked in the source order `qq`, `dist_plot`, `plot_acf`,
`time_plot`. -/
def plot_diagnostics (lib : StatsLib) (glib : GraphicsLib) (data : Series)
    (return_data : Bool := false) (show_ : Bool := true) : Output :=
  let fig := make_subplots 2 2 [1 / 2, 1 / 2]
    ["Time Plot", "Histogram Plot", "ACF Plot", "Quantile-Quantile Plot"]
  let fig := { fig with showlegend := some false }
  let fig := { fig with template := some "simple_white" }
  let fig := diag_qq glib data fig
  let fig := diag_dist_plot glib data fig
  let fig := diag_plot_acf lib data fig
  let fig := diag_time_plot data fig
  { ret := if return_data then .figSeries fig data else .fig fig,
    effects := [Eff.qqplotCall data, Eff.histogramCall data,
      Eff.acfCall data (1 / 20)] ++ showEffects show_ }

/-- `plot_predictions_with_confidence`: plots the original data and the
predictions provided with confidence intervals.  The local name `data` is
rebound to the trace list `[lower_bound, mean, upper_bound, original]`
before the figure is built, as in the source. -/
def plot_predictions_with_confidence
    (data predictions upper_interval lower_interval : Series)
    (return_data : Bool := false) (show_ : Bool := true) : Output :=
  let upper_bound : Trace :=
    { name := some "Upper interval", x := upper_interval.to_timestamp,
      y := upper_interval.values, mode := "lines",
      markerColor := some "#68BBE3", lineWidth := some 0,
      fillColor := some "#68BBE3", showlegend := some true,
      fill := some "tonexty" }
  let mean : Trace :=
    { name := some "Forecast", x := predictions.to_timestamp,
      y := predictions.values, mode := "lines+markers",
      lineColor := some "#1f77b4", markerSize := some 5,
      fillColor := some "#68BBE3", fill := some "tonexty",
      showlegend := some true }
  let original : Trace :=
    { name := some "Original", x := data.to_timestamp, y := data.values,
      mode := "lines+markers", markerSize := some 5,
      markerColor := some "#3f3f3f", showlegend := some true }
  let lower_bound : Trace :=
    { name := some "Lower Interval", x := lower_interval.to_timestamp,
      y := lower_interval.values, markerColor := some "#68BBE3",
      lineWidth := some 0, mode := "lines", showlegend := some false }
  let data := [lower_bound, mean, upper_bound, original]
  let fig : Figure :=
    { traces := data, yaxisTitle := some "Values",
      xaxisTitle := some "Time", title := some "Forecasts" }
  let fig := { fig with template := some "simple_white" }
  let fig := { fig with showlegend := some true }
  { ret := if return_data then
      .figTracesSeries3 fig data predictions upper_interval lower_interval
      else .fig fig,
    effects := showEffects show_ }

/-- Models `return plot_data if return_data else None` at the end of
`plot_`. -/
def finalize (o : Output) (return_data : Bool) : Output :=
  { o with ret := if return_data then o.ret else .noneRet }

/-- `plot_`: the chart-rendering entry point, dispatching on the plot
name. -/
def plot_ (lib : StatsLib) (glib : GraphicsLib) (plot : String)
    (data train test predictions : Series) (cv : CVSplitter)
    (return_data : Bool := false) (show_ : Bool := true) :
    Except String Output :=
  if plot = "ts" then
    .ok (finalize (plot_series data return_data show_) return_data)
  else if plot = "splits-tt" then
    .ok (finalize (plot_splits_tt train test return_data show_) return_data)
  else if plot = "splits_cv" then
    .ok (finalize (plot_splits_cv data cv return_data show_) return_data)
  else if plot = "acf" then
    .ok (finalize (plot_acf lib data return_data show_) return_data)
  else if plot = "pacf" then
    .ok (finalize (plot_pacf lib data return_data show_) return_data)
  else if plot = "predictions" then
    .ok (finalize (plot_predictions data predictions return_data show_)
      return_data)
  else if plot = "residuals" then
    .ok (finalize (plot_diagnostics lib glib data return_data show_)
      return_data)
  else
    .error ("Tests: \x27" ++ plot ++ "\x27 is not supported.")

/-- Effects of a `plot_` call: the invoked routine's effects, nothing
when the name was rejected. -/
def effectsOf (r : Except String Output) : List Eff :=
  match r with
  | .ok o => o.effects
  | .error _ => []

/-- The traces of a figure lying in subplot cell `(r, c)`. -/
def cellTraces (f : Figure) (r c : Nat) : List Trace :=
  f.traces.filter (fun t => decide (t.row = some r ∧ t.col = some c))

/-- A concrete sample series, used to instantiate universally quantified
theorems at explicit inputs. -/
def sampleSeries : Series :=
  { name := some "y", index := [0, 1, 2, 3], values := [5, 3, 4, 6] }

/-- A second concrete sample series (forecast values). -/
def samplePreds : Series :=
  { name := some "yhat", index := [4, 5], values := [7, 8] }

/-- A concrete instantiation of the external statistics library. -/
def sampleStats : StatsLib :=
  { acf := fun _ _ =>
      { estimates := [1, 1 / 2], confint := [(3 / 4, 5 / 4), (1 / 4, 3 / 4)] },
    pacf := fun _ _ =>
      { estimates := [1, 1 / 3], confint := [(1 / 2, 3 / 2), (0, 2 / 3)] } }

/-- A concrete instantiation of the external graphics helpers. -/
def sampleGraphics : GraphicsLib :=
  { qqplot := fun _ =>
      { pointsX := [0], pointsY := [1], lineX := [0, 1], lineY := [0, 1] },
    histogram := fun s => { kind := "histogram", x := s.values } }

/-- A concrete instantiation of the external cross-validation splitter:
two splits over a four-point series. -/
def sampleCV : CVSplitter :=
  { split := fun _ => [([0, 1], [2]), ([1, 2], [3])] }

/-!  Theorems: helper lemmas first, then one theorem per claim. -/

/-- Filtering a mapped list when no image satisfies the predicate. -/
theorem filter_map_eq_nil {α β : Type} (l : List α) (f : α → β)
    (p : β → Bool) (h : ∀ a, p (f a) = false) : (l.map f).filter p = [] := by
  induction l with
  | nil => rfl
  | cons a l ih => simp [List.filter_cons, h, ih]

/-- Filtering a mapped list when every image satisfies the predicate. -/
theorem filter_map_eq_self {α β : Type} (l : List α) (f : α → β)
    (p : β → Bool) (h : ∀ a, p (f a) = true) :
    (l.map f).filter p = l.map f := by
  induction l with
  | nil => rfl
  | cons a l ih => simp [List.filter_cons, h, ih]

/-- `all` over a mapped list when every image satisfies the predicate. -/
theorem all_map_of {α β : Type} (l : List α) (f : α → β) (p : β → Bool)
    (h : ∀ a, p (f a) = true) : ((l.map f).all p) = true := by
  induction l with
  | nil => rfl
  | cons a l ih => simp [h, ih]

/-- C3: every plotting function, called with `show=False`, returns a
plotly figure when `return_data=False`, and a tuple whose first component
is that same figure when `return_data=True`. -/
theorem every_plot_function_returns_chart_object (lib : StatsLib)
    (glib : GraphicsLib)
    (data train test predictions upper lower : Series) (cv : CVSplitter) :
    (∃ f, (plot_series data false false).ret = .fig f ∧
      (plot_series data true false).ret.figOf = some f) ∧
    (∃ f, (plot_splits_tt train test false false).ret = .fig f ∧
      (plot_splits_tt train test true false).ret.figOf = some f) ∧
    (∃ f, (plot_splits_cv data cv false false).ret = .fig f ∧
      (plot_splits_cv data cv true false).ret.figOf = some f) ∧
    (∃ f, (plot_acf lib data false false).ret = .fig f ∧
      (plot_acf lib data true false).ret.figOf = some f) ∧
    (∃ f, (plot_pacf lib data false false).ret = .fig f ∧
      (plot_pacf lib data true false).ret.figOf = some f) ∧
    (∃ f, (plot_predictions data predictions false false).ret = .fig f ∧
      (plot_predictions data predictions true false).ret.figOf = some f) ∧
    (∃ f, (plot_diagnostics lib glib data false false).ret = .fig f ∧
      (plot_diagnostics lib glib data true false).ret.figOf = some f) ∧
    (∃ f, (plot_predictions_with_confidence data predictions upper lower
        false false).ret = .fig f ∧
      (plot_predictions_with_confidence data predictions upper lower
        true false).ret.figOf = some f) :=
  ⟨⟨_, rfl, rfl⟩, ⟨_, rfl, rfl⟩, ⟨_, rfl, rfl⟩, ⟨_, rfl, rfl⟩,
   ⟨_, rfl, rfl⟩, ⟨_, rfl, rfl⟩, ⟨_, rfl, rfl⟩, ⟨_, rfl, rfl⟩⟩

/-- C7: the confidence-band forecast figure holds exactly four traces, in
the order lower interval, forecast, upper interval, original; the
forecast and upper-interval traces fill down to the previous trace
(`fill="tonexty"`), shading the band between the interval bounds. -/
theorem confidence_figure_four_traces
    (data predictions upper_interval lower_interval : Series)
    (return_data : Bool) :
    ((plot_predictions_with_confidence data predictions upper_interval
        lower_interval return_data false).theFig.traces.map
      (fun t => (t.name, t.fill, t.y))) =
    [(some "Lower Interval", none, lower_interval.values),
     (some "Forecast", some "tonexty", predictions.values),
     (some "Upper interval", some "tonexty", upper_interval.values),
     (some "Original", none, data.values)] := by
  cases return_data <;> rfl

/-- Commuting a filter with `slFalse` when the predicate ignores the
`showlegend` field. -/
theorem filter_slFalse_map (p : Trace → Bool)
    (hpsl : ∀ t, p (slFalse t) = p t) (l : List Trace) :
    (l.map slFalse).filter p = (l.filter p).map slFalse := by
  induction l with
  | nil => rfl
  | cons a l ih =>
      simp only [List.map_cons, List.filter_cons, hpsl a]
      cases h : p a <;> simp [h, ih]

/-- Filtering the trace list built by `plot_acf`/`plot_pacf` — a marker
trace, the lag lines, the two band traces, then (after an
`update_traces`) the zero line — by a predicate that keeps only the two
band traces. -/
theorem band_filter_general (p : Trace → Bool) (M U C Z : Trace)
    (g : Nat → Trace) (n : Nat)
    (hpsl : ∀ t, p (slFalse t) = p t)
    (hM : p M = false) (hg : ∀ i, p (g i) = false)
    (hU : p U = true) (hC : p C = true) (hZ : p Z = false) :
    ((((((([] ++ [M]) ++ (List.range n).map g) ++ [U]) ++ [C]).map slFalse
        ++ [Z]).map slFalse).filter p).map (fun t => t.y) = [U.y, C.y] := by
  have hg2 : ∀ a, p (slFalse (slFalse (g a))) = false := fun a => by
    rw [hpsl, hpsl]; exact hg a
  have hM2 : p (slFalse (slFalse M)) = false := by rw [hpsl, hpsl]; exact hM
  have hU2 : p (slFalse (slFalse U)) = true := by rw [hpsl, hpsl]; exact hU
  have hC2 : p (slFalse (slFalse C)) = true := by rw [hpsl, hpsl]; exact hC
  have hZ2 : p (slFalse Z) = false := by rw [hpsl]; exact hZ
  simp only [List.nil_append, List.map_append, List.map_map,
    List.map_cons, List.map_nil, List.filter_append]
  rw [filter_map_eq_nil (List.range n) (slFalse ∘ slFalse ∘ g) p
    (fun a => hg2 a)]
  simp only [List.filter_cons, List.filter_nil, hM2, hU2, hC2, hZ2]
  simp [slFalse]

/-- C4: the correlation values returned by `plot_acf` (resp. `plot_pacf`)
with `return_data=True` are exactly the external library's `acf` (resp.
`pacf`) estimates at `alpha=0.05`, unchanged; the only derived quantities
are the confidence-band traces, whose y-values are the confidence-interval
columns minus the estimates. -/
theorem correlation_values_unchanged (lib : StatsLib) (data : Series) :
    (plot_acf lib data true false).ret.valsOf =
      some ((lib.acf data (1 / 20)).estimates) ∧
    (plot_pacf lib data true false).ret.valsOf =
      some ((lib.pacf data (1 / 20)).estimates) ∧
    ((plot_acf lib data true false).theFig.traces.filter
        (fun t => decide (t.lineColor = some "rgba(255,255,255,0)"))).map
      (fun t => t.y) =
      [List.zipWith (fun (c : ℚ × ℚ) e => c.2 - e)
        (lib.acf data (1 / 20)).confint (lib.acf data (1 / 20)).estimates,
       List.zipWith (fun (c : ℚ × ℚ) e => c.1 - e)
        (lib.acf data (1 / 20)).confint
        (lib.acf data (1 / 20)).estimates] ∧
    ((plot_pacf lib data true false).theFig.traces.filter
        (fun t => decide (t.lineColor = some "rgba(255,255,255,0)"))).map
      (fun t => t.y) =
      [List.zipWith (fun (c : ℚ × ℚ) e => c.2 - e)
        (lib.pacf data (1 / 20)).confint (lib.pacf data (1 / 20)).estimates,
       List.zipWith (fun (c : ℚ × ℚ) e => c.1 - e)
        (lib.pacf data (1 / 20)).confint
        (lib.pacf data (1 / 20)).estimates] :=
  ⟨rfl, rfl,
   band_filter_general _ _ _ _ _ _ _ (fun _ => rfl) rfl (fun _ => rfl)
     rfl rfl rfl,
   band_filter_general _ _ _ _ _ _ _ (fun _ => rfl) rfl (fun _ => rfl)
     rfl rfl rfl⟩

/-- Filtering a singleton by a predicate with a known value. -/
theorem filter_singleton {α : Type} (p : α → Bool) (a : α) (b : Bool)
    (h : p a = b) : [a].filter p = cond b [a] [] := by
  cases b <;> simp [List.filter_cons, h]

/-- Filtering a mapped list when the predicate is constant on images. -/
theorem filter_map_cond {α β : Type} (l : List α) (f : α → β)
    (p : β → Bool) (b : Bool) (h : ∀ a, p (f a) = b) :
    (l.map f).filter p = cond b (l.map f) [] := by
  cases b
  · exact filter_map_eq_nil l f p h
  · exact filter_map_eq_self l f p h

/-- Filtering the trace list built by `plot_diagnostics` — the two qqplot
traces, the histogram trace, the ACF lag lines, markers and band traces
(all passed through `update_traces(showlegend=False)`), then the time
plot — by a predicate with known value on each component. -/
theorem diag_filter_general (p : Trace → Bool) (Q1 Q2 H MK UC LC TP : Trace)
    (g : Nat → Trace) (n : Nat) (b1 b2 b3 bg b4 b5 b6 b7 : Bool)
    (hpsl : ∀ t, p (slFalse t) = p t)
    (h1 : p Q1 = b1) (h2 : p Q2 = b2) (h3 : p H = b3)
    (hg : ∀ i, p (g i) = bg) (h4 : p MK = b4) (h5 : p UC = b5)
    (h6 : p LC = b6) (h7 : p TP = b7) :
    (((((((([] ++ [Q1]) ++ [Q2]) ++ [H]) ++ (List.range n).map g) ++ [MK])
        ++ [UC]) ++ [LC]).map slFalse ++ [TP]).filter p =
      (cond b1 [slFalse Q1] []) ++ ((cond b2 [slFalse Q2] []) ++
      ((cond b3 [slFalse H] []) ++
      ((cond bg ((List.range n).map (slFalse ∘ g)) []) ++
      ((cond b4 [slFalse MK] []) ++ ((cond b5 [slFalse UC] []) ++
      ((cond b6 [slFalse LC] []) ++ (cond b7 [TP] []))))))) := by
  have e1 : p (slFalse Q1) = b1 := by rw [hpsl]; exact h1
  have e2 : p (slFalse Q2) = b2 := by rw [hpsl]; exact h2
  have e3 : p (slFalse H) = b3 := by rw [hpsl]; exact h3
  have eg : ∀ i, p ((slFalse ∘ g) i) = bg := fun i => by
    show p (slFalse (g i)) = bg
    rw [hpsl]; exact hg i
  have e4 : p (slFalse MK) = b4 := by rw [hpsl]; exact h4
  have e5 : p (slFalse UC) = b5 := by rw [hpsl]; exact h5
  have e6 : p (slFalse LC) = b6 := by rw [hpsl]; exact h6
  simp only [List.nil_append, List.map_append, List.map_map, List.map_cons,
    List.map_nil, List.filter_append]
  rw [filter_singleton p (slFalse Q1) b1 e1,
    filter_singleton p (slFalse Q2) b2 e2,
    filter_singleton p (slFalse H) b3 e3,
    filter_map_cond (List.range n) (slFalse ∘ g) p bg eg,
    filter_singleton p (slFalse MK) b4 e4,
    filter_singleton p (slFalse UC) b5 e5,
    filter_singleton p (slFalse LC) b6 e6,
    filter_singleton p TP b7 h7]
  simp [List.append_assoc]

/-- `all` over the trace list built by `plot_diagnostics`, when the
predicate holds on every component. -/
theorem diag_all_general (p : Trace → Bool) (Q1 Q2 H MK UC LC TP : Trace)
    (g : Nat → Trace) (n : Nat)
    (hpsl : ∀ t, p (slFalse t) = p t)
    (h1 : p Q1 = true) (h2 : p Q2 = true) (h3 : p H = true)
    (hg : ∀ i, p (g i) = true) (h4 : p MK = true) (h5 : p UC = true)
    (h6 : p LC = true) (h7 : p TP = true) :
    ((((((((([] ++ [Q1]) ++ [Q2]) ++ [H]) ++ (List.range n).map g) ++ [MK])
        ++ [UC]) ++ [LC]).map slFalse ++ [TP]).all p) = true := by
  have eg : ∀ i, p ((slFalse ∘ g) i) = true := fun i => by
    show p (slFalse (g i)) = true
    rw [hpsl]; exact hg i
  simp only [List.nil_append, List.map_append, List.map_map, List.map_cons,
    List.map_nil, List.all_append, List.all_cons, List.all_nil]
  rw [all_map_of (List.range n) (slFalse ∘ g) p eg]
  simp [hpsl, h1, h2, h3, h4, h5, h6, h7]

set_option maxHeartbeats 2000000 in
/-- C6: `plot_diagnostics` builds a single figure laid out as a 2-by-2
grid whose four panels are: the time plot of the series at (row 1, col
1), the histogram of its values at (row 1, col 2), the ACF plot (lag
lines, markers and confidence band) at (row 2, col 1), and the
quantile-quantile plot (sample points and reference line) at (row 2, col
2); every trace lies in one of these four cells. -/
theorem diagnostics_grid (lib : StatsLib) (glib : GraphicsLib)
    (data : Series) (return_data : Bool) :
    (plot_diagnostics lib glib data return_data false).theFig.rows = 2 ∧
    (plot_diagnostics lib glib data return_data false).theFig.cols = 2 ∧
    (plot_diagnostics lib glib data return_data
        false).theFig.subplotTitles =
      ["Time Plot", "Histogram Plot", "ACF Plot",
        "Quantile-Quantile Plot"] ∧
    cellTraces (plot_diagnostics lib glib data return_data false).theFig
        1 1 =
      [{ x := data.to_timestamp, y := data.values, mode := "lines+markers",
         markerColor := some "#1f77b4", markerSize := some 2,
         name := some "Time Plot", row := some 1, col := some 1 }] ∧
    cellTraces (plot_diagnostics lib glib data return_data false).theFig
        1 2 =
      [slFalse { glib.histogram data with row := some 1, col := some 2 }] ∧
    cellTraces (plot_diagnostics lib glib data return_data false).theFig
        2 2 =
      [{ kind := "scatter", name := data.name,
         x := (glib.qqplot data).pointsX, y := (glib.qqplot data).pointsY,
         mode := "markers", markerColor := some "#1f77b4",
         showlegend := some false, row := some 2, col := some 2 },
       { kind := "scatter", name := data.name,
         x := (glib.qqplot data).lineX, y := (glib.qqplot data).lineY,
         mode := "lines", lineColor := some "#3f3f3f",
         showlegend := some false, row := some 2, col := some 2 }] ∧
    cellTraces (plot_diagnostics lib glib data return_data false).theFig
        2 1 =
      (List.range (lib.acf data (1 / 20)).estimates.length).map
        (slFalse ∘ (fun (i : Nat) =>
          ({ x := [(i : ℚ), (i : ℚ)],
             y := [0, (lib.acf data (1 / 20)).estimates.getD i 0],
             mode := "lines", lineColor := some "#3f3f3f", row := some 2,
             col := some 1, name := some "ACF" } : Trace))) ++
      [{ x := arange (lib.acf data (1 / 20)).estimates.length,
         y := (lib.acf data (1 / 20)).estimates, mode := "markers",
         markerColor := some "#1f77b4", markerSize := some 6,
         showlegend := some false, row := some 2, col := some 1 },
       { x := arange (lib.acf data (1 / 20)).estimates.length,
         y := List.zipWith (fun (c : ℚ × ℚ) e => c.2 - e)
           (lib.acf data (1 / 20)).confint
           (lib.acf data (1 / 20)).estimates,
         mode := "lines", lineColor := some "rgba(255,255,255,0)",
         name := some "UC", showlegend := some false, row := some 2,
         col := some 1 },
       { x := arange (lib.acf data (1 / 20)).estimates.length,
         y := List.zipWith (fun (c : ℚ × ℚ) e => c.1 - e)
           (lib.acf data (1 / 20)).confint
           (lib.acf data (1 / 20)).estimates,
         mode := "lines", fillColor := some "rgba(32, 146, 230,0.3)",
         fill := some "tonexty", lineColor := some "rgba(255,255,255,0)",
         name := some "LC", showlegend := some false, row := some 2,
         col := some 1 }] ∧
    ((plot_diagnostics lib glib data return_data false).theFig.traces.all
      (fun t => decide ((t.row = some 1 ∧ t.col = some 1) ∨
        (t.row = some 1 ∧ t.col = some 2) ∨
        (t.row = some 2 ∧ t.col = some 1) ∨
        (t.row = some 2 ∧ t.col = some 2)))) = true := by
  have hfig : (plot_diagnostics lib glib data return_data false).theFig =
      (plot_diagnostics lib glib data false false).theFig := by
    cases return_data <;> rfl
  rw [hfig]
  refine ⟨rfl, rfl, rfl, ?_, ?_, ?_, ?_, ?_⟩
  · refine diag_filter_general _ _ _ _ _ _ _ _ _ _
      false false false false false false false true
      ?_ ?_ ?_ ?_ ?_ ?_ ?_ ?_ ?_ <;> first | rfl | (intro x; rfl)
  · refine diag_filter_general _ _ _ _ _ _ _ _ _ _
      false false true false false false false false
      ?_ ?_ ?_ ?_ ?_ ?_ ?_ ?_ ?_ <;> first | rfl | (intro x; rfl)
  · refine diag_filter_general _ _ _ _ _ _ _ _ _ _
      true true false false false false false false
      ?_ ?_ ?_ ?_ ?_ ?_ ?_ ?_ ?_ <;> first | rfl | (intro x; rfl)
  · refine diag_filter_general _ _ _ _ _ _ _ _ _ _
      false false false true true true true false
      ?_ ?_ ?_ ?_ ?_ ?_ ?_ ?_ ?_ <;> first | rfl | (intro x; rfl)
  · refine diag_all_general _ _ _ _ _ _ _ _ _ _
      ?_ ?_ ?_ ?_ ?_ ?_ ?_ ?_ ?_ <;> first | rfl | (intro x; rfl)

/-- Setting `showlegend=False` twice is the same as setting it once. -/
theorem slFalse_comp : slFalse ∘ slFalse = slFalse :=
  funext fun _ => rfl

/-- `update_traces(showlegend=False)` maps `slFalse` over the traces. -/
theorem updateTracesShowlegend_false (f : Figure) :
    (f.updateTracesShowlegend false).traces = f.traces.map slFalse := rfl

/-- The `get_windows` loop appends the train and test index arrays of the
splits, in order, to its accumulators. -/
theorem getWindowsLoop_eq (splits : List (List Nat × List Nat)) :
    ∀ a1 a2, getWindowsLoop splits a1 a2 =
      (a1 ++ splits.map Prod.fst, a2 ++ splits.map Prod.snd) := by
  induction splits with
  | nil => intro a1 a2; simp [getWindowsLoop]
  | cons p rest ih =>
      intro a1 a2
      cases p with
      | mk tr te => simp [getWindowsLoop, ih, List.append_assoc]

/-- The traces accumulated by the `plot_windows` loop over a nonempty
window-index list: the rows' traces in iteration order, all passed
through `update_traces(showlegend=False)`. -/
theorem foldl_addWindowRow_traces (data : Series)
    (tws sws : List (List Nat)) :
    ∀ (ks : List Nat) (k : Nat) (fig : Figure),
      (List.foldl (addWindowRow data tws sws) fig (k :: ks)).traces =
        (fig.traces ++ ((k :: ks).map (fun j =>
          windowRowTraces data (tws.getD j []) (sws.getD j []) j)).flatten).map
          slFalse := by
  intro ks
  induction ks with
  | nil =>
      intro k fig
      simp [addWindowRow, updateTracesShowlegend_false, Figure.logAxisOp]
  | cons k2 rest ih =>
      intro k fig
      rw [List.foldl_cons, ih k2 (addWindowRow data tws sws fig k)]
      simp [addWindowRow, updateTracesShowlegend_false, Figure.logAxisOp,
        List.map_append, List.map_map, slFalse_comp, List.append_assoc]

/-- Filtering the concatenation of per-window trace blocks keeps exactly
the block of the window the predicate selects. -/
theorem filter_join_single {α : Type} (p : α → Bool) (row : Nat → List α) :
    ∀ (ls : List Nat) (k : Nat), k ∈ ls → ls.Nodup →
      (∀ x ∈ row k, p x = true) →
      (∀ j ∈ ls, j ≠ k → ∀ x ∈ row j, p x = false) →
      ((ls.map row).flatten).filter p = row k := by
  intro ls
  induction ls with
  | nil => intro k hk _ _ _; exact absurd hk (List.not_mem_nil k)
  | cons a rest ih =>
      intro k hk hnd hin hout
      simp only [List.map_cons, List.flatten_cons, List.filter_append]
      rcases List.mem_cons.mp hk with rfl | hkrest
      · rw [List.filter_eq_self.mpr hin]
        have hrest : ((rest.map row).flatten).filter p = [] := by
          rw [List.filter_eq_nil_iff]
          intro x hx
          rw [List.mem_flatten] at hx
          obtain ⟨l, hl, hxl⟩ := hx
          rw [List.mem_map] at hl
          obtain ⟨j, hj, rfl⟩ := hl
          have hja : j ≠ k := by
            rintro rfl
            exact (List.nodup_cons.mp hnd).1 hj
          simp [hout j (List.mem_cons_of_mem _ hj) hja x hxl]
        rw [hrest, List.append_nil]
      · have ha : ∀ x ∈ row a, p x = false := by
          intro x hx
          refine hout a (List.mem_cons_self a rest) ?_ x hx
          rintro rfl
          exact (List.nodup_cons.mp hnd).1 hkrest
        rw [List.filter_eq_nil_iff.mpr (fun x hx => by simp [ha x hx]),
          List.nil_append]
        exact ih k hkrest (List.nodup_cons.mp hnd).2 hin
          (fun j hj hjk x hx => hout j (List.mem_cons_of_mem _ hj) hjk x hx)

/-- Every trace of window row `j` sits at height `y = (j, j)`. -/
theorem windowRow_y (data : Series) (tw sw : List Nat) (j : Nat) :
    ∀ x ∈ windowRowTraces data tw sw j, x.y = [(j : ℚ), (j : ℚ)] := by
  intro x hx
  simp only [windowRowTraces, List.mem_append, List.mem_map] at hx
  rcases hx with (⟨i, _, rfl⟩ | ⟨i, _, rfl⟩) | ⟨i, _, rfl⟩ <;> rfl

set_option maxHeartbeats 2000000 in
/-- C5: `plot_splits_cv` obtains its train and test
windows solely by iterating `cv.split(data)` in order — `get_windows`
collects each yielded train index array and test index array unmodified —
and the traces plotted at height `k` are exactly the row built from the
`k`-th yielded split. -/
theorem cv_windows_from_splitter (data : Series) (cv : CVSplitter)
    (return_data : Bool) (k : Nat) (hk : k < (cv.split data).length) :
    get_windows data cv =
      ((cv.split data).map Prod.fst, (cv.split data).map Prod.snd) ∧
    ((plot_splits_cv data cv return_data false).theFig.traces.filter
        (fun t => decide (t.y = [(k : ℚ), (k : ℚ)]))) =
      (windowRowTraces data
        (((cv.split data).map Prod.fst).getD k [])
        (((cv.split data).map Prod.snd).getD k []) k).map slFalse := by
  have hw : get_windows data cv =
      ((cv.split data).map Prod.fst, (cv.split data).map Prod.snd) := by
    rw [get_windows, getWindowsLoop_eq]
    simp
  refine ⟨hw, ?_⟩
  have hfig : (plot_splits_cv data cv return_data false).theFig =
      plot_windows data ((cv.split data).map Prod.fst)
        ((cv.split data).map Prod.snd) := by
    cases return_data <;>
      simp [plot_splits_cv, Output.theFig, PyRet.figOf, hw]
  rw [hfig]
  obtain ⟨a, ls, hcons⟩ : ∃ a ls,
      (List.range ((cv.split data).map Prod.fst).length).reverse =
        a :: ls := by
    cases h :
        (List.range ((cv.split data).map Prod.fst).length).reverse with
    | nil =>
        exfalso
        have h0 : (cv.split data).length = 0 := by
          have hlen := congrArg List.length h
          simpa using hlen
        omega
    | cons a ls => exact ⟨a, ls, rfl⟩
  simp only [plot_windows]
  rw [hcons, foldl_addWindowRow_traces, ← hcons]
  dsimp only
  rw [List.nil_append]
  rw [filter_slFalse_map (fun t => decide (t.y = [(k : ℚ), (k : ℚ)]))
    (fun t => rfl)]
  rw [filter_join_single _ _ _ k ?_ ?_ ?_ ?_]
  · simp [List.mem_reverse, List.mem_range, hk]
  · exact List.nodup_reverse.mpr (List.nodup_range _)
  · intro x hx
    simp [windowRow_y data _ _ k x hx]
  · intro j hj hjk x hx
    simp [windowRow_y data _ _ j x hx, hjk]

/-- C5 (witness): the theorem instantiated at a concrete series, a
concrete splitter yielding two splits, and window index 0. -/
theorem cv_windows_from_splitter_witness :
    (0 < (sampleCV.split sampleSeries).length) ∧
    (get_windows sampleSeries sampleCV =
      ((sampleCV.split sampleSeries).map Prod.fst,
       (sampleCV.split sampleSeries).map Prod.snd) ∧
    ((plot_splits_cv sampleSeries sampleCV false
        false).theFig.traces.filter
        (fun t => decide (t.y = [((0 : Nat) : ℚ), ((0 : Nat) : ℚ)]))) =
      (windowRowTraces sampleSeries
        (((sampleCV.split sampleSeries).map Prod.fst).getD 0 [])
        (((sampleCV.split sampleSeries).map Prod.snd).getD 0 []) 0).map
        slFalse) :=
  ⟨by decide,
   cv_windows_from_splitter sampleSeries sampleCV false 0 (by decide)⟩

/-- C1 (counterexample): no plot-name string makes the dispatcher `plot_`
produce the five-component confidence-band result that
`plot_predictions_with_confidence` builds; that routine is unreachable
through `plot_`. -/
theorem no_plot_name_reaches_confidence_plot :
    ¬ ∃ (s : String) (lib : StatsLib) (glib : GraphicsLib)
        (data train test predictions : Series) (cv : CVSplitter)
        (o : Output),
      plot_ lib glib s data train test predictions cv true false = .ok o ∧
        o.ret.isFig3 = true := by
  rintro ⟨s, lib, glib, data, train, test, predictions, cv, o, ho, h3⟩
  unfold plot_ at ho
  split_ifs at ho
  all_goals
    first
    | exact Except.noConfusion ho
    | (obtain rfl := Except.ok.inj ho; exact Bool.noConfusion h3)

/-- C1 (amended): each of the seven supported plot names invokes the
corresponding rendering routine — "ts" the raw-series plot, "splits-tt"
the train/test split plot, "splits_cv" the cross-validation window plot,
"acf" and "pacf" the autocorrelation plots, "predictions" the forecast
overlay `plot_predictions` (without confidence bands), and "residuals"
the composite diagnostics panel. -/
theorem dispatch_table (lib : StatsLib) (glib : GraphicsLib)
    (data train test predictions : Series) (cv : CVSplitter)
    (return_data show_ : Bool) :
    plot_ lib glib "ts" data train test predictions cv return_data show_ =
      .ok (finalize (plot_series data return_data show_) return_data) ∧
    plot_ lib glib "splits-tt" data train test predictions cv return_data
        show_ =
      .ok (finalize (plot_splits_tt train test return_data show_)
        return_data) ∧
    plot_ lib glib "splits_cv" data train test predictions cv return_data
        show_ =
      .ok (finalize (plot_splits_cv data cv return_data show_)
        return_data) ∧
    plot_ lib glib "acf" data train test predictions cv return_data show_ =
      .ok (finalize (plot_acf lib data return_data show_) return_data) ∧
    plot_ lib glib "pacf" data train test predictions cv return_data show_ =
      .ok (finalize (plot_pacf lib data return_data show_) return_data) ∧
    plot_ lib glib "predictions" data train test predictions cv return_data
        show_ =
      .ok (finalize (plot_predictions data predictions return_data show_)
        return_data) ∧
    plot_ lib glib "residuals" data train test predictions cv return_data
        show_ =
      .ok (finalize (plot_diagnostics lib glib data return_data show_)
        return_data) :=
  ⟨rfl, rfl, rfl, rfl, rfl, rfl, rfl⟩

/-- C2 (counterexample): at a concrete input, `plot_acf` performs a
statistics-library call (`acf(data, alpha=0.05)`) on the raw series
inside the function — it does not receive precomputed autocorrelation
values as an input. -/
theorem acf_computed_internally :
    (plot_acf sampleStats sampleSeries false false).effects =
      [Eff.acfCall sampleSeries (1 / 20)] ∧
    ((plot_acf sampleStats sampleSeries false false).effects.any
      Eff.isStatCall) = true :=
  ⟨rfl, rfl⟩

/-- C2 (amended): `plot_series`, `plot_splits_tt`, `plot_predictions` and
`plot_predictions_with_confidence` accept already-computed series and
perform no statistical computation; `plot_splits_cv` only queries the
external splitter; but `plot_acf`, `plot_pacf` and `plot_diagnostics`
derive their statistical summaries (ACF/PACF values, qq-plot lines,
histogram) from the raw series inside the function by calling the
external libraries. -/
theorem stat_calls_per_function (lib : StatsLib) (glib : GraphicsLib)
    (data train test predictions upper lower : Series) (cv : CVSplitter)
    (return_data : Bool) :
    (plot_series data return_data false).effects = [] ∧
    (plot_splits_tt train test return_data false).effects = [] ∧
    (plot_predictions data predictions return_data false).effects = [] ∧
    (plot_predictions_with_confidence data predictions upper lower
      return_data false).effects = [] ∧
    (plot_splits_cv data cv return_data false).effects =
      [Eff.cvSplitCall data] ∧
    (plot_acf lib data return_data false).effects =
      [Eff.acfCall data (1 / 20)] ∧
    (plot_pacf lib data return_data false).effects =
      [Eff.pacfCall data (1 / 20)] ∧
    (plot_diagnostics lib glib data return_data false).effects =
      [Eff.qqplotCall data, Eff.histogramCall data,
        Eff.acfCall data (1 / 20)] :=
  ⟨rfl, rfl, rfl, rfl, rfl, rfl, rfl, rfl⟩

/-- C8: every unsupported plot-name string makes `plot_` raise
`ValueError`, and every supported name with `return_data=False` makes
`plot_` return `None`. -/
theorem plot_name_validation (lib : StatsLib) (glib : GraphicsLib)
    (s : String) (data train test predictions : Series) (cv : CVSplitter)
    (return_data show_ : Bool) :
    (s ∉ (["ts", "splits-tt", "splits_cv", "acf", "pacf", "predictions",
        "residuals"] : List String) →
      plot_ lib glib s data train test predictions cv return_data show_ =
        .error ("Tests: \x27" ++ s ++ "\x27 is not supported.")) ∧
    (s ∈ (["ts", "splits-tt", "splits_cv", "acf", "pacf", "predictions",
        "residuals"] : List String) →
      ∃ o, plot_ lib glib s data train test predictions cv false show_ =
        .ok o ∧ o.ret = .noneRet) := by
  constructor
  · intro h
    simp only [List.mem_cons, List.not_mem_nil, or_false, not_or] at h
    obtain ⟨h1, h2, h3, h4, h5, h6, h7⟩ := h
    simp [plot_, h1, h2, h3, h4, h5, h6, h7]
  · intro h
    simp only [List.mem_cons, List.not_mem_nil, or_false] at h
    rcases h with rfl | rfl | rfl | rfl | rfl | rfl | rfl <;>
      exact ⟨_, rfl, rfl⟩

/-- C8 (witness): the theorem instantiated at the unsupported name
"bogus" and the supported name "ts" with concrete inputs. -/
theorem plot_name_validation_witness :
    (plot_ sampleStats sampleGraphics "bogus" sampleSeries sampleSeries
      sampleSeries samplePreds sampleCV false false =
        .error ("Tests: \x27" ++ "bogus" ++ "\x27 is not supported.")) ∧
    (∃ o, plot_ sampleStats sampleGraphics "ts" sampleSeries sampleSeries
      sampleSeries samplePreds sampleCV false false = .ok o ∧
        o.ret = .noneRet) :=
  ⟨(plot_name_validation sampleStats sampleGraphics "bogus" sampleSeries
      sampleSeries sampleSeries samplePreds sampleCV false false).1
      (by decide),
   (plot_name_validation sampleStats sampleGraphics "ts" sampleSeries
      sampleSeries sampleSeries samplePreds sampleCV false false).2
      (by decide)⟩

/-- C10: no plotting function mutates its series arguments: the effect
log of every call — through the dispatcher or any individual plotting
function — contains no series mutation, so every series argument holds
the same index and values after the call as before. -/
theorem no_series_mutation (lib : StatsLib) (glib : GraphicsLib)
    (s : String) (data train test predictions upper lower : Series)
    (cv : CVSplitter) (return_data show_ : Bool) :
    ((plot_series data return_data show_).effects.all
      (fun e => !e.isMutate)) = true ∧
    ((plot_splits_tt train test return_data show_).effects.all
      (fun e => !e.isMutate)) = true ∧
    ((plot_splits_cv data cv return_data show_).effects.all
      (fun e => !e.isMutate)) = true ∧
    ((plot_acf lib data return_data show_).effects.all
      (fun e => !e.isMutate)) = true ∧
    ((plot_pacf lib data return_data show_).effects.all
      (fun e => !e.isMutate)) = true ∧
    ((plot_predictions data predictions return_data show_).effects.all
      (fun e => !e.isMutate)) = true ∧
    ((plot_diagnostics lib glib data return_data show_).effects.all
      (fun e => !e.isMutate)) = true ∧
    ((plot_predictions_with_confidence data predictions upper lower
      return_data show_).effects.all (fun e => !e.isMutate)) = true ∧
    ((effectsOf (plot_ lib glib s data train test predictions cv
      return_data show_)).all (fun e => !e.isMutate)) = true := by
  refine ⟨?_, ?_, ?_, ?_, ?_, ?_, ?_, ?_, ?_⟩ <;>
    first
    | (cases show_ <;> rfl)
    | (unfold plot_; split_ifs <;> (cases show_ <;> rfl))

/-- C9: with `return_data=True`, `plot_predictions` returns a 3-tuple
whose second element is the list of the two scatter traces (forecast then
original) built for the figure — the local name `data` having been
rebound to that trace list — and whose third element is the predictions
series passed in. -/
theorem predictions_returns_trace_list (data predictions : Series) :
    ∃ f, (plot_predictions data predictions true false).ret =
        .figTracesSeries f f.traces predictions ∧
      f.traces.map (fun t => (t.name, t.y)) =
        [(some "Forecast", predictions.values),
         (some "Original", data.values)] :=
  ⟨_, rfl, rfl⟩

end TSPlots
